import Mathlib

/-
Shallow embedding of the account/OTP core of the Aklabu/e-commerce Django
backend (src/backend/accounts/{models,views,serializers}.py and
src/backend/utils/response.py).

Modelling conventions:
- Time is a Nat counting seconds; `timezone.now()` becomes an explicit
  `now` argument threaded to each request handler.
- The database is an explicit record of lists of rows; `auto_now_add`
  timestamps and UUID primary keys become the `now` argument and a
  `nextId` counter.
- Each APIView.post becomes a function `DB -> inputs -> Response × DB`
  returning the response envelope produced through CustomResponse and the
  updated store.
- Serializer checks that are pure input-shape validation (password
  confirmation/strength, address field presence) are abstracted by a
  `valid : Bool` input; the checks the handlers perform themselves
  (existence, type, OTP state) are modelled explicitly.
- `OTP.generate_otp()` is a uniform random draw of 8 digits; the drawn
  code is passed in as an input to the operation.
-/

namespace ECom

/-- The response envelope built by CustomResponse.success / CustomResponse.error
(src/backend/utils/response.py): success flag, HTTP status code and the
user-facing message. The data payload and timestamp are not modelled. -/
structure Response where
  success : Bool
  statusCode : Nat
  message : String
deriving Repr, DecidableEq

/-- CustomerType choices (src/backend/accounts/models.py). -/
inductive CustomerType where
  | Retail
  | Trade
deriving Repr, DecidableEq

/-- A row of the customers table (src/backend/accounts/models.py, Customer).
The password hash is abstracted to the plain credential string; checking a
password against the stored hash becomes string equality. -/
structure Customer where
  email : String
  password : String
  customer_type : CustomerType
  is_verified : Bool
  is_active : Bool
  first_name : String
  last_name : String
  phone_number : String
deriving Repr, DecidableEq

/-- A row of the otps table (src/backend/accounts/models.py, OTP).
`id` stands for the UUID primary key, `otp` is the 8-digit code string. -/
structure OTPRow where
  id : Nat
  email : String
  otp : String
  created_at : Nat
  expires_at : Nat
  is_used : Bool
deriving Repr, DecidableEq

/-- timedelta(minutes=10) from OTP.save, in seconds. -/
def tenMinutes : Nat := 600

/-- OTP.is_valid (models.py lines 271-273): the row is neither used nor
expired, expiry being strict comparison of now against expires_at. -/
def OTPRow.is_valid (o : OTPRow) (now : Nat) : Bool :=
  !o.is_used && decide (now < o.expires_at)

/-- Creating a row as OTP.objects.create(email=..., otp=code) does:
created_at is auto_now_add, and OTP.save fills expires_at with creation
time + 10 minutes when none was supplied (models.py lines 265-269). -/
def mkOTP (id : Nat) (email code : String) (now : Nat) (expires : Option Nat) : OTPRow :=
  { id := id, email := email, otp := code, created_at := now,
    expires_at := expires.getD (now + tenMinutes), is_used := false }

/-- Accumulator of .latest(created_at): keep the row with the larger
created_at, a later row winning ties. -/
def chooseLater (acc : Option OTPRow) (r : OTPRow) : Option OTPRow :=
  match acc with
  | none => some r
  | some b => if b.created_at ≤ r.created_at then some r else some b

/-- The row .latest(created_at) selects from a list of candidates, none when
the queryset is empty (OTP.DoesNotExist). -/
def pickLatest (rows : List OTPRow) : Option OTPRow :=
  rows.foldl chooseLater none

/-- OTP.objects.filter(email=..., otp=...).latest(created_at): among the rows
matching exact (email, code), the most recently created one. -/
def latestOTP (rows : List OTPRow) (email code : String) : Option OTPRow :=
  pickLatest (rows.filter (fun r => decide (r.email = email) && decide (r.otp = code)))

/-- A billing or delivery address row; `city` stands for the mutable address
payload, `owner` is the user foreign key (by customer email, which is
unique). -/
structure AddressRow where
  id : Nat
  owner : String
  city : String
deriving Repr, DecidableEq

/-- A trade_information row: one-to-one user key plus its business_type. -/
structure TradeInfoRow where
  owner : String
  business_type : String
deriving Repr, DecidableEq

/-- The backing store plus the outbox of emails handed to send_mail.
`nextId` feeds fresh primary keys. -/
structure DB where
  customers : List Customer
  otps : List OTPRow
  billing : List AddressRow
  delivery : List AddressRow
  trades : List TradeInfoRow
  sentEmails : List String
  nextId : Nat
deriving Repr, DecidableEq

/-- Customer.objects.get(email=...): emails are unique so the first match
stands for the unique row. -/
def findCustomer (customers : List Customer) (email : String) : Option Customer :=
  customers.find? (fun c => decide (c.email = email))

/-- otp_obj.is_used = True; otp_obj.save(): persist the used flag on the row
with the given primary key. -/
def markUsed (rows : List OTPRow) (i : Nat) : List OTPRow :=
  rows.map (fun r => if r.id = i then { r with is_used := true } else r)

/-- customer.is_verified = True; customer.save() for the row with this email. -/
def setVerified (customers : List Customer) (email : String) : List Customer :=
  customers.map (fun c => if c.email = email then { c with is_verified := true } else c)

/-- customer.set_password(p); customer.save() for the row with this email. -/
def setPassword (customers : List Customer) (email p : String) : List Customer :=
  customers.map (fun c => if c.email = email then { c with password := p } else c)

/-- OTP.objects.create(email=..., otp=code) followed by a send_*_email call:
append a fresh row (expiry defaulted by OTP.save) and record the outbound
email. Email failures are swallowed by the views, so sending never alters
the outcome. -/
def issueOTP (db : DB) (email code : String) (now : Nat) : DB :=
  { db with otps := db.otps ++ [mkOTP db.nextId email code now none],
            sentEmails := db.sentEmails ++ [email],
            nextId := db.nextId + 1 }

/-- VerifyEmailAPIView.post (views.py lines 226-269): select the latest OTP
row for (email, code); no row gives 400 "Invalid OTP"; an invalid row gives
400 "Invalid or expired OTP"; otherwise the row is marked used and saved
first, then the customer is looked up (404 "User not found" if absent, with
the OTP already consumed) and flipped to verified. -/
def verifyEmailPost (db : DB) (now : Nat) (email code : String) : Response × DB :=
  match latestOTP db.otps email code with
  | none => (⟨false, 400, "Invalid OTP"⟩, db)
  | some o =>
      if !o.is_valid now then
        (⟨false, 400, "Invalid or expired OTP"⟩, db)
      else
        let db1 := { db with otps := markUsed db.otps o.id }
        match findCustomer db1.customers email with
        | none => (⟨false, 404, "User not found"⟩, db1)
        | some _ =>
            (⟨true, 200, "Email verified successfully. Registration complete! You can now login."⟩,
             { db1 with customers := setVerified db1.customers email })

/-- VerifyResetOTPAPIView.post (views.py lines 499-530): same lookup and
validity check as verify-email, but on success it only reports OK — the
store is never written, the row stays unconsumed. -/
def verifyResetOTPPost (db : DB) (now : Nat) (email code : String) : Response × DB :=
  match latestOTP db.otps email code with
  | none => (⟨false, 400, "Invalid OTP"⟩, db)
  | some o =>
      if !o.is_valid now then
        (⟨false, 400, "Invalid or expired OTP"⟩, db)
      else
        (⟨true, 200, "OTP verified successfully. You can now reset your password."⟩, db)

/-- ResetPasswordAPIView.post (views.py lines 537-581): the serializer's
password confirmation/strength checks are the valid flag; then the same
latest-row lookup, validity check, consume-then-find-customer sequence as
verify-email, ending in set_password instead of the verified flip. -/
def resetPasswordPost (db : DB) (now : Nat) (email code newPassword : String)
    (valid : Bool) : Response × DB :=
  if !valid then (⟨false, 400, "Validation failed"⟩, db)
  else
    match latestOTP db.otps email code with
    | none => (⟨false, 400, "Invalid OTP"⟩, db)
    | some o =>
        if !o.is_valid now then
          (⟨false, 400, "Invalid or expired OTP"⟩, db)
        else
          let db1 := { db with otps := markUsed db.otps o.id }
          match findCustomer db1.customers email with
          | none => (⟨false, 404, "User not found"⟩, db1)
          | some _ =>
              (⟨true, 200, "Password reset successful"⟩,
               { db1 with customers := setPassword db1.customers email newPassword })

/-- Input of registration step 1 (CustomerRegistrationSerializer fields). -/
structure RegistrationData where
  email : String
  password : String
  customer_type : CustomerType
  first_name : String
  last_name : String
  phone_number : String
deriving Repr, DecidableEq

/-- RegisterAPIView.post (views.py lines 29-56): serializer validation
(password confirmation and strength as the valid flag, plus the unique=True
email column) gates creation; on success Customer.objects.create_user
persists the row with the model defaults is_verified=False, is_active=True. -/
def registerPost (db : DB) (data : RegistrationData) (valid : Bool) : Response × DB :=
  if !valid || (findCustomer db.customers data.email).isSome then
    (⟨false, 400, "Registration failed"⟩, db)
  else
    (⟨true, 201, "Registration successful. Please complete billing address."⟩,
     { db with customers := db.customers ++
        [{ email := data.email, password := data.password,
           customer_type := data.customer_type, is_verified := false,
           is_active := true, first_name := data.first_name,
           last_name := data.last_name, phone_number := data.phone_number }] })

/-- The representative payload of a billing/delivery address request body. -/
structure AddressData where
  city : String
deriving Repr, DecidableEq

/-- BillingAddressRegisterAPIView.post (views.py lines 68-101): missing email
is 400, unknown customer 404, serializer failure 400; otherwise a new
BillingAddress row linked to the customer is appended. No OTP, no email. -/
def billingAddressRegisterPost (db : DB) (email : String) (addr : AddressData)
    (valid : Bool) : Response × DB :=
  if email = "" then (⟨false, 400, "Email is required"⟩, db)
  else
    match findCustomer db.customers email with
    | none => (⟨false, 404, "Customer not found. Please register first."⟩, db)
    | some customer =>
        if !valid then (⟨false, 400, "Validation failed"⟩, db)
        else
          (⟨true, 201, "Billing address added successfully. Please complete delivery address."⟩,
           { db with billing := db.billing ++ [⟨db.nextId, customer.email, addr.city⟩],
                     nextId := db.nextId + 1 })

/-- DeliveryAddressRegisterAPIView.post (views.py lines 104-147): after the
address row is saved, a Trade customer is told to continue to trade info,
while a Retail customer gets an OTP minted and a verification email. -/
def deliveryAddressRegisterPost (db : DB) (now : Nat) (email : String)
    (addr : AddressData) (valid : Bool) (code : String) : Response × DB :=
  if email = "" then (⟨false, 400, "Email is required"⟩, db)
  else
    match findCustomer db.customers email with
    | none => (⟨false, 404, "Customer not found. Please register first."⟩, db)
    | some customer =>
        if !valid then (⟨false, 400, "Validation failed"⟩, db)
        else
          let db1 : DB :=
            { db with delivery := db.delivery ++ [⟨db.nextId, customer.email, addr.city⟩],
                      nextId := db.nextId + 1 }
          if customer.customer_type = CustomerType.Trade then
            (⟨true, 201, "Delivery address added successfully. Please complete trade information."⟩,
             db1)
          else
            (⟨true, 201, "Delivery address added successfully. Verification email sent. Please verify your email."⟩,
             issueOTP db1 customer.email code now)

/-- TradeInformationRegisterAPIView.post (views.py lines 159-210): 404 for an
unknown customer, 403 for a non-Trade customer, 400 when a trade_information
row already exists (hasattr on the one-to-one), 400 on serializer failure;
on success the row is created and an OTP is minted and emailed. -/
def tradeInformationRegisterPost (db : DB) (now : Nat) (email : String)
    (businessType : String) (valid : Bool) (code : String) : Response × DB :=
  if email = "" then (⟨false, 400, "Email is required"⟩, db)
  else
    match findCustomer db.customers email with
    | none => (⟨false, 404, "Customer not found. Please register first."⟩, db)
    | some customer =>
        if customer.customer_type ≠ CustomerType.Trade then
          (⟨false, 403, "Only Trade customers can submit trade information"⟩, db)
        else if db.trades.any (fun t => decide (t.owner = customer.email)) then
          (⟨false, 400, "Trade information already exists for this customer"⟩, db)
        else if !valid then (⟨false, 400, "Validation failed"⟩, db)
        else
          (⟨true, 201, "Trade information submitted successfully. Verification email sent. Please verify your email."⟩,
           issueOTP { db with trades := db.trades ++ [⟨customer.email, businessType⟩] }
             customer.email code now)

/-- ResendOTPAPIView.post (views.py lines 272-310): 404 for an unknown
customer, 400 when already verified, else a fresh OTP is minted and mailed. -/
def resendOTPPost (db : DB) (now : Nat) (email code : String) : Response × DB :=
  match findCustomer db.customers email with
  | none => (⟨false, 404, "User not found"⟩, db)
  | some customer =>
      if customer.is_verified then (⟨false, 400, "Email is already verified"⟩, db)
      else (⟨true, 200, "OTP sent successfully"⟩, issueOTP db email code now)

/-- ForgotPasswordAPIView.post (views.py lines 452-492): 404 for an unknown
email, else a reset OTP is minted and mailed. -/
def forgotPasswordPost (db : DB) (now : Nat) (email code : String) : Response × DB :=
  match findCustomer db.customers email with
  | none => (⟨false, 404, "User with this email does not exist"⟩, db)
  | some _ =>
      (⟨true, 200, "Password reset OTP sent to your email"⟩, issueOTP db email code now)

/-- Modelled from the spec: the credential check `authenticate(email=...,
password=...)` is delegated to the auth framework, whose backend
configuration (settings.py) is not under src; per the spec it accepts
exactly a matching (email, password) pair, every verified/active gating
being done afterwards in the view. -/
def authenticate (db : DB) (email password : String) : Option Customer :=
  db.customers.find? (fun c => decide (c.email = email) && decide (c.password = password))

/-- LoginAPIView.post (views.py lines 322-381): 401 when authenticate yields
nothing, then 403 for an unverified account, then 403 with a different
message for a deactivated one; only then are tokens issued (token contents
out of scope). -/
def loginPost (db : DB) (email password : String) : Response × DB :=
  match authenticate db email password with
  | none => (⟨false, 401, "Invalid credentials"⟩, db)
  | some user =>
      if !user.is_verified then
        (⟨false, 403, "Email not verified. Please verify your email first."⟩, db)
      else if !user.is_active then
        (⟨false, 403, "Account is deactivated"⟩, db)
      else (⟨true, 200, "Login successful"⟩, db)

/-- ChangePasswordAPIView.post (views.py lines 584-605) for the authenticated
customer: the serializer rejects a wrong old password (check_password) or a
failed confirmation/strength check (the valid flag); otherwise set_password. -/
def changePasswordPost (db : DB) (userEmail oldPassword newPassword : String)
    (valid : Bool) : Response × DB :=
  match findCustomer db.customers userEmail with
  | none => (⟨false, 400, "Validation failed"⟩, db)
  | some user =>
      if !valid || user.password ≠ oldPassword then
        (⟨false, 400, "Validation failed"⟩, db)
      else
        (⟨true, 200, "Password changed successfully"⟩,
         { db with customers := setPassword db.customers userEmail newPassword })

/-- One entry of the billing_addresses / delivery_addresses lists accepted by
CustomerProfileUpdateSerializer: an optional id plus the address payload
(represented by city). -/
structure AddressEntry where
  id : Option Nat
  city : String
deriving Repr, DecidableEq

/-- One iteration of the address loops in
CustomerProfileUpdateSerializer.update (serializers.py lines 263-306), on the
state (table rows, next fresh id). An entry with an id patches the row
fetched by .get(id=address_id, user=instance) — the row with that id owned by
this customer — and when that get raises DoesNotExist the except branch is
`pass`: nothing is written. An entry without an id saves a new row with
user=instance. -/
def applyAddressEntry (owner : String) (st : List AddressRow × Nat)
    (e : AddressEntry) : List AddressRow × Nat :=
  match e.id with
  | some i =>
      if st.1.any (fun r => decide (r.id = i) && decide (r.owner = owner)) then
        (st.1.map (fun r =>
           if r.id = i ∧ r.owner = owner then { r with city := e.city } else r),
         st.2)
      else st
  | none => (st.1 ++ [⟨st.2, owner, e.city⟩], st.2 + 1)

/-- The partial patch accepted by CustomerProfileUpdateSerializer: optional
scalar fields, optional address entry lists, optional trade_information dict
(represented by its business_type). -/
structure ProfilePatch where
  first_name : Option String
  last_name : Option String
  phone_number : Option String
  billing_addresses : Option (List AddressEntry)
  delivery_addresses : Option (List AddressEntry)
  trade_information : Option String
deriving Repr, DecidableEq

/-- ProfileUpdateAPIView.patch with CustomerProfileUpdateSerializer.update
(serializers.py lines 250-347) for the authenticated customer: scalar fields
first, then each billing entry, then each delivery entry, then the
trade_information branch, which raises ValidationError (400) for a non-Trade
customer — after the earlier writes are already persisted, there being no
enclosing transaction — and otherwise upserts the one-to-one row. -/
def profileUpdatePatch (db : DB) (userEmail : String) (patch : ProfilePatch) :
    Response × DB :=
  match findCustomer db.customers userEmail with
  | none => (⟨false, 400, "Validation failed"⟩, db)
  | some user =>
      let db1 : DB := { db with customers := db.customers.map (fun c =>
        if c.email = userEmail then
          { c with first_name := patch.first_name.getD c.first_name,
                   last_name := patch.last_name.getD c.last_name,
                   phone_number := patch.phone_number.getD c.phone_number }
        else c) }
      let stB := (patch.billing_addresses.getD []).foldl
        (applyAddressEntry userEmail) (db1.billing, db1.nextId)
      let db2 : DB := { db1 with billing := stB.1, nextId := stB.2 }
      let stD := (patch.delivery_addresses.getD []).foldl
        (applyAddressEntry userEmail) (db2.delivery, db2.nextId)
      let db3 : DB := { db2 with delivery := stD.1, nextId := stD.2 }
      match patch.trade_information with
      | none => (⟨true, 200, "Profile updated successfully"⟩, db3)
      | some bt =>
          if user.customer_type ≠ CustomerType.Trade then
            (⟨false, 400, "Only Trade customers can have trade information"⟩, db3)
          else if db3.trades.any (fun t => decide (t.owner = userEmail)) then
            (⟨true, 200, "Profile updated successfully"⟩,
             { db3 with trades := db3.trades.map (fun t =>
                 if t.owner = userEmail then { t with business_type := bt } else t) })
          else
            (⟨true, 200, "Profile updated successfully"⟩,
             { db3 with trades := db3.trades ++ [⟨userEmail, bt⟩] })

/-- The public state-changing surface of the accounts app: one constructor
per POST/PATCH handler. Logout and token refresh only touch the external
token blacklist, never the store modelled here, and GET profile reads only;
they are omitted as identity steps. -/
inductive Op where
  | register (data : RegistrationData) (valid : Bool)
  | billingAddress (email : String) (addr : AddressData) (valid : Bool)
  | deliveryAddress (email : String) (addr : AddressData) (valid : Bool) (code : String)
  | tradeInfo (email businessType : String) (valid : Bool) (code : String)
  | verifyEmail (email code : String)
  | resendOTP (email code : String)
  | login (email password : String)
  | forgotPassword (email code : String)
  | verifyResetOTP (email code : String)
  | resetPassword (email code newPassword : String) (valid : Bool)
  | changePassword (userEmail oldPassword newPassword : String) (valid : Bool)
  | profileUpdate (userEmail : String) (patch : ProfilePatch)
deriving Repr, DecidableEq

/-- Recogniser of the verify-email operation. -/
def Op.isVerifyEmail : Op → Bool
  | .verifyEmail _ _ => true
  | _ => false

/-- Dispatch of one inbound request at time `now` to its handler. -/
def step (db : DB) (now : Nat) : Op → Response × DB
  | .register d v => registerPost db d v
  | .billingAddress e a v => billingAddressRegisterPost db e a v
  | .deliveryAddress e a v c => deliveryAddressRegisterPost db now e a v c
  | .tradeInfo e b v c => tradeInformationRegisterPost db now e b v c
  | .verifyEmail e c => verifyEmailPost db now e c
  | .resendOTP e c => resendOTPPost db now e c
  | .login e p => loginPost db e p
  | .forgotPassword e c => forgotPasswordPost db now e c
  | .verifyResetOTP e c => verifyResetOTPPost db now e c
  | .resetPassword e c p v => resetPasswordPost db now e c p v
  | .changePassword e o n v => changePasswordPost db e o n v
  | .profileUpdate e p => profileUpdatePatch db e p

/-! Characterisation of the .latest(created_at) selection. -/

theorem foldl_chooseLater_some (l : List OTPRow) (b : OTPRow) :
    ∃ o, l.foldl chooseLater (some b) = some o ∧ (o = b ∨ o ∈ l) ∧
      b.created_at ≤ o.created_at ∧ ∀ r ∈ l, r.created_at ≤ o.created_at := by
  induction l generalizing b with
  | nil => exact ⟨b, rfl, Or.inl rfl, le_refl _, by simp⟩
  | cons r l ih =>
    simp only [List.foldl_cons]
    by_cases h : b.created_at ≤ r.created_at
    · obtain ⟨o, ho, hmem, hle, hall⟩ := ih r
      refine ⟨o, ?_, ?_, le_trans h hle, ?_⟩
      · simpa [chooseLater, h] using ho
      · rcases hmem with h1 | h1
        · exact Or.inr (by simp [h1])
        · exact Or.inr (List.mem_cons_of_mem _ h1)
      · intro s hs
        rcases List.mem_cons.mp hs with h1 | h1
        · exact h1 ▸ hle
        · exact hall s h1
    · obtain ⟨o, ho, hmem, hle, hall⟩ := ih b
      refine ⟨o, ?_, ?_, hle, ?_⟩
      · simpa [chooseLater, h] using ho
      · rcases hmem with h1 | h1
        · exact Or.inl h1
        · exact Or.inr (List.mem_cons_of_mem _ h1)
      · intro s hs
        rcases List.mem_cons.mp hs with h1 | h1
        · exact h1 ▸ le_trans (Nat.le_of_not_le h) hle
        · exact hall s h1

theorem pickLatest_spec (l : List OTPRow) (o : OTPRow) (h : pickLatest l = some o) :
    o ∈ l ∧ ∀ r ∈ l, r.created_at ≤ o.created_at := by
  cases l with
  | nil => simp [pickLatest] at h
  | cons r l =>
    obtain ⟨o', ho', hmem, hle, hall⟩ := foldl_chooseLater_some l r
    have : pickLatest (r :: l) = some o' := by
      simpa [pickLatest, List.foldl_cons, chooseLater] using ho'
    rw [this] at h
    obtain rfl : o' = o := Option.some.inj h
    constructor
    · rcases hmem with h1 | h1
      · simp [h1]
      · exact List.mem_cons_of_mem _ h1
    · intro s hs
      rcases List.mem_cons.mp hs with h1 | h1
      · exact h1 ▸ hle
      · exact hall s h1

theorem pickLatest_eq_none (l : List OTPRow) (h : pickLatest l = none) : l = [] := by
  cases l with
  | nil => rfl
  | cons r l =>
    obtain ⟨o', ho', _, _, _⟩ := foldl_chooseLater_some l r
    have : pickLatest (r :: l) = some o' := by
      simpa [pickLatest, List.foldl_cons, chooseLater] using ho'
    rw [this] at h
    cases h

/-- The queryset .filter(email, otp).latest(created_at): `some o` means o is a
matching stored row whose created_at dominates every matching row. -/
theorem latestOTP_spec (rows : List OTPRow) (email code : String) (o : OTPRow)
    (h : latestOTP rows email code = some o) :
    o ∈ rows ∧ o.email = email ∧ o.otp = code ∧
      ∀ r ∈ rows, r.email = email → r.otp = code → r.created_at ≤ o.created_at := by
  obtain ⟨hmem, hall⟩ := pickLatest_spec _ o h
  rw [List.mem_filter] at hmem
  obtain ⟨hmem, hcond⟩ := hmem
  simp only [Bool.and_eq_true, decide_eq_true_eq] at hcond
  refine ⟨hmem, hcond.1, hcond.2, ?_⟩
  intro r hr he hc
  exact hall r (List.mem_filter.mpr ⟨hr, by simp [he, hc]⟩)

/-- OTP.DoesNotExist: the lookup yields none exactly when no stored row
matches (email, code). -/
theorem latestOTP_none (rows : List OTPRow) (email code : String)
    (h : latestOTP rows email code = none) :
    ∀ r ∈ rows, ¬(r.email = email ∧ r.otp = code) := by
  intro r hr hcond
  have hfilter := pickLatest_eq_none _ h
  have : r ∈ rows.filter (fun r => decide (r.email = email) && decide (r.otp = code)) :=
    List.mem_filter.mpr ⟨hr, by simp [hcond.1, hcond.2]⟩
  rw [hfilter] at this
  cases this

/-! Concrete stores used by the witnesses and counterexamples. -/

/-- A Retail customer awaiting verification. -/
def retailCustomer : Customer :=
  { email := "a@x", password := "pw", customer_type := .Retail,
    is_verified := false, is_active := true,
    first_name := "", last_name := "", phone_number := "" }

/-- A fresh OTP row for that customer: code 12345678 issued at t = 0. -/
def freshOTP : OTPRow :=
  { id := 0, email := "a@x", otp := "12345678", created_at := 0,
    expires_at := 600, is_used := false }

/-- Store with one unverified Retail customer and one live OTP row. -/
def sampleDB : DB :=
  { customers := [retailCustomer], otps := [freshOTP], billing := [],
    delivery := [], trades := [], sentEmails := [], nextId := 1 }

/-- Store holding a live OTP row but no customer at all. -/
def orphanDB : DB :=
  { customers := [], otps := [freshOTP], billing := [], delivery := [],
    trades := [], sentEmails := [], nextId := 1 }

/-- Store whose only matching OTP row is already consumed. -/
def usedDB : DB :=
  { sampleDB with otps := [{ freshOTP with is_used := true }] }

/-- Store with the customer but no OTP row at all. -/
def noOtpDB : DB :=
  { sampleDB with otps := [] }

/-- A Trade customer whose trade_information row already exists. -/
def tradeCustomer : Customer :=
  { email := "t@x", password := "pw", customer_type := .Trade,
    is_verified := false, is_active := true,
    first_name := "", last_name := "", phone_number := "" }

/-- Store with a Trade customer and an existing trade_information row. -/
def tradeDB : DB :=
  { customers := [tradeCustomer], otps := [], billing := [], delivery := [],
    trades := [⟨"t@x", "Reseller"⟩], sentEmails := [], nextId := 1 }

/-- Store with one verified, active customer. -/
def verifiedDB : DB :=
  { customers := [{ retailCustomer with is_verified := true }], otps := [],
    billing := [], delivery := [], trades := [], sentEmails := [], nextId := 1 }

/-! Shared facts about the store mutators. -/

theorem markUsed_sets (rows : List OTPRow) (i : Nat) :
    ∀ r ∈ markUsed rows i, r.id = i → r.is_used = true := by
  intro r hr hid
  obtain ⟨s, _, rfl⟩ := List.mem_map.mp hr
  by_cases h : s.id = i <;> simp [h] at hid ⊢

theorem setVerified_sets (customers : List Customer) (email : String) :
    ∀ c ∈ setVerified customers email, c.email = email → c.is_verified = true := by
  intro c hc hemail
  obtain ⟨d, _, rfl⟩ := List.mem_map.mp hc
  by_cases h : d.email = email <;> simp [h] at hemail ⊢

/-! Claim theorems. -/

/-- Claim C1: email verification selects the most recently created OTP row
matching exact (email, code); with no such row it fails with 400 (NotFound
branch), with an invalid selected row it fails with 400, and on success it
marks that row used and sets the customer's verified flag to true. -/
theorem C1_verify_email_contract (db : DB) (now : Nat) (email code : String) :
    (latestOTP db.otps email code = none →
      verifyEmailPost db now email code = (⟨false, 400, "Invalid OTP"⟩, db)) ∧
    ∀ o, latestOTP db.otps email code = some o →
      o ∈ db.otps ∧ o.email = email ∧ o.otp = code ∧
      (∀ r ∈ db.otps, r.email = email → r.otp = code → r.created_at ≤ o.created_at) ∧
      (o.is_valid now = false →
        verifyEmailPost db now email code = (⟨false, 400, "Invalid or expired OTP"⟩, db)) ∧
      (o.is_valid now = true → (findCustomer db.customers email).isSome →
        verifyEmailPost db now email code =
          (⟨true, 200, "Email verified successfully. Registration complete! You can now login."⟩,
           { db with otps := markUsed db.otps o.id,
                     customers := setVerified db.customers email })) := by
  refine ⟨fun hl => by simp [verifyEmailPost, hl], fun o hl => ?_⟩
  obtain ⟨hmem, he, hc, hmax⟩ := latestOTP_spec db.otps email code o hl
  refine ⟨hmem, he, hc, hmax, fun hinv => by simp [verifyEmailPost, hl, hinv], ?_⟩
  intro hval hsome
  obtain ⟨c, hcust⟩ := Option.isSome_iff_exists.mp hsome
  simp [verifyEmailPost, hl, hval, hcust]

/-- Witness for C1: on the sample store the live row is selected, consumed,
and the customer comes out verified. -/
theorem C1_verify_email_contract_witness :
    verifyEmailPost sampleDB 5 "a@x" "12345678" =
      (⟨true, 200, "Email verified successfully. Registration complete! You can now login."⟩,
       { sampleDB with otps := markUsed sampleDB.otps 0,
                       customers := setVerified sampleDB.customers "a@x" }) :=
  ((C1_verify_email_contract sampleDB 5 "a@x" "12345678").2 freshOTP
    rfl).2.2.2.2.2 rfl rfl

/-- Claim C2: is_valid() is true iff the row is unused and now is strictly
before expires_at; a row created without an explicit expires_at gets
creation time + 10 minutes; hence once 10 minutes have elapsed since
issuance, verification with the correct code fails. -/
theorem C2_otp_validity_window (o : OTPRow) (now : Nat) (i : Nat)
    (email code : String) (db : DB) (now2 : Nat) :
    (o.is_valid now = true ↔ (o.is_used = false ∧ now < o.expires_at)) ∧
    ((mkOTP i email code now none).expires_at =
      (mkOTP i email code now none).created_at + tenMinutes) ∧
    (∀ o2, latestOTP db.otps email code = some o2 →
      o2.expires_at = o2.created_at + tenMinutes →
      o2.created_at + tenMinutes ≤ now2 →
      (verifyEmailPost db now2 email code).1.success = false ∧
      (verifyEmailPost db now2 email code).1.statusCode = 400) := by
  refine ⟨by simp [OTPRow.is_valid], rfl, ?_⟩
  intro o2 hl hexp helapsed
  have hinv : o2.is_valid now2 = false := by
    simp [OTPRow.is_valid, hexp]
    intro _
    omega
  simp [verifyEmailPost, hl, hinv]

/-- Witness for C2: the sample row (issued at 0, defaulted expiry 600) is
rejected at t = 600, ten minutes after issuance. -/
theorem C2_otp_validity_window_witness :
    (verifyEmailPost sampleDB 600 "a@x" "12345678").1.success = false ∧
    (verifyEmailPost sampleDB 600 "a@x" "12345678").1.statusCode = 400 :=
  (C2_otp_validity_window freshOTP 0 0 "a@x" "12345678" sampleDB 600).2.2
    freshOTP rfl rfl (by decide)

/-- Claim C10: in verify-email and reset-password, a valid latest OTP row is
marked used and persisted before the customer lookup, so when no customer
exists for the email the request answers 404 with the OTP already consumed. -/
theorem C10_otp_consumed_on_user_not_found (db : DB) (now : Nat)
    (email code newPassword : String) :
    ∀ o, latestOTP db.otps email code = some o → o.is_valid now = true →
      findCustomer db.customers email = none →
      verifyEmailPost db now email code =
        (⟨false, 404, "User not found"⟩, { db with otps := markUsed db.otps o.id }) ∧
      resetPasswordPost db now email code newPassword true =
        (⟨false, 404, "User not found"⟩, { db with otps := markUsed db.otps o.id }) ∧
      (∀ r ∈ (verifyEmailPost db now email code).2.otps, r.id = o.id → r.is_used = true) := by
  intro o hl hval hnone
  have h1 : verifyEmailPost db now email code =
      (⟨false, 404, "User not found"⟩, { db with otps := markUsed db.otps o.id }) := by
    simp [verifyEmailPost, hl, hval, hnone]
  refine ⟨h1, by simp [resetPasswordPost, hl, hval, hnone], ?_⟩
  rw [h1]
  exact markUsed_sets db.otps o.id

/-- Witness for C10 on the orphan store: the row is live, there is no
customer, the answer is 404 and the row comes out used. -/
theorem C10_otp_consumed_on_user_not_found_witness :
    verifyEmailPost orphanDB 5 "a@x" "12345678" =
      (⟨false, 404, "User not found"⟩, { orphanDB with otps := markUsed orphanDB.otps 0 }) ∧
    resetPasswordPost orphanDB 5 "a@x" "12345678" "newpw" true =
      (⟨false, 404, "User not found"⟩, { orphanDB with otps := markUsed orphanDB.otps 0 }) :=
  ⟨(C10_otp_consumed_on_user_not_found orphanDB 5 "a@x" "12345678" "newpw" freshOTP
      rfl rfl rfl).1,
   (C10_otp_consumed_on_user_not_found orphanDB 5 "a@x" "12345678" "newpw" freshOTP
      rfl rfl rfl).2.1⟩

/-- Claim C7: a successful verify-reset-otp writes nothing — in fact the
handler never writes the store at all — so a later reset-password with the
same (email, code), while the row is still valid, verifies and consumes it. -/
theorem C7_verify_reset_otp_frame (db : DB) (now now2 : Nat)
    (email code newPassword : String) :
    (verifyResetOTPPost db now email code).2 = db ∧
    (∀ o, latestOTP db.otps email code = some o → o.is_valid now2 = true →
      (findCustomer db.customers email).isSome →
      resetPasswordPost db now2 email code newPassword true =
        (⟨true, 200, "Password reset successful"⟩,
         { db with otps := markUsed db.otps o.id,
                   customers := setPassword db.customers email newPassword }) ∧
      ∀ r ∈ (resetPasswordPost db now2 email code newPassword true).2.otps,
        r.id = o.id → r.is_used = true) := by
  constructor
  · rcases hl : latestOTP db.otps email code with _ | o
    · simp [verifyResetOTPPost, hl]
    · cases hv : o.is_valid now <;> simp [verifyResetOTPPost, hl, hv]
  · intro o hl hval hsome
    obtain ⟨c, hcust⟩ := Option.isSome_iff_exists.mp hsome
    have h1 : resetPasswordPost db now2 email code newPassword true =
        (⟨true, 200, "Password reset successful"⟩,
         { db with otps := markUsed db.otps o.id,
                   customers := setPassword db.customers email newPassword }) := by
      simp [resetPasswordPost, hl, hval, hcust]
    refine ⟨h1, ?_⟩
    rw [h1]
    exact markUsed_sets db.otps o.id

/-- Witness for C7: on the sample store the reset check answers 200 without
touching anything, and the follow-up reset-password still consumes the row. -/
theorem C7_verify_reset_otp_frame_witness :
    (verifyResetOTPPost sampleDB 5 "a@x" "12345678").2 = sampleDB ∧
    resetPasswordPost sampleDB 6 "a@x" "12345678" "newpw" true =
      (⟨true, 200, "Password reset successful"⟩,
       { sampleDB with otps := markUsed sampleDB.otps 0,
                       customers := setPassword sampleDB.customers "a@x" "newpw" }) :=
  ⟨(C7_verify_reset_otp_frame sampleDB 5 6 "a@x" "12345678" "newpw").1,
   ((C7_verify_reset_otp_frame sampleDB 5 6 "a@x" "12345678" "newpw").2 freshOTP
      rfl rfl rfl).1⟩

/-- Counterexample to claim C8 as stated: the two failing branches do NOT
produce the identical user-facing message — the no-matching-row branch says
"Invalid OTP" while the invalid-row branch says "Invalid or expired OTP". -/
theorem C8_counterexample :
    (verifyEmailPost noOtpDB 5 "a@x" "12345678").1.message = "Invalid OTP" ∧
    (verifyEmailPost usedDB 5 "a@x" "12345678").1.message = "Invalid or expired OTP" ∧
    "Invalid OTP" ≠ "Invalid or expired OTP" :=
  ⟨rfl, rfl, by decide⟩

/-- Claim C8 amended: both failing OTP branches answer 400, but with distinct
messages — "Invalid OTP" when no row matches and "Invalid or expired OTP"
when the selected row is expired or used — in verify-email as well as in
verify-reset-otp, so the message does reveal which branch failed. -/
theorem C8_branch_messages (db : DB) (now : Nat) (email code : String) :
    (latestOTP db.otps email code = none →
      (verifyEmailPost db now email code).1 = ⟨false, 400, "Invalid OTP"⟩ ∧
      (verifyResetOTPPost db now email code).1 = ⟨false, 400, "Invalid OTP"⟩) ∧
    (∀ o, latestOTP db.otps email code = some o → o.is_valid now = false →
      (verifyEmailPost db now email code).1 = ⟨false, 400, "Invalid or expired OTP"⟩ ∧
      (verifyResetOTPPost db now email code).1 = ⟨false, 400, "Invalid or expired OTP"⟩) := by
  constructor
  · intro hl
    exact ⟨by simp [verifyEmailPost, hl], by simp [verifyResetOTPPost, hl]⟩
  · intro o hl hinv
    exact ⟨by simp [verifyEmailPost, hl, hinv], by simp [verifyResetOTPPost, hl, hinv]⟩

/-- Witness for amended C8: on the store without rows the message is
"Invalid OTP", on the store with a consumed row it is "Invalid or expired
OTP". -/
theorem C8_branch_messages_witness :
    (verifyEmailPost noOtpDB 5 "a@x" "12345678").1 = ⟨false, 400, "Invalid OTP"⟩ ∧
    (verifyEmailPost usedDB 5 "a@x" "12345678").1 = ⟨false, 400, "Invalid or expired OTP"⟩ :=
  ⟨((C8_branch_messages noOtpDB 5 "a@x" "12345678").1 rfl).1,
   ((C8_branch_messages usedDB 5 "a@x" "12345678").2 { freshOTP with is_used := true }
      rfl rfl).1⟩

/-- Counterexample to claim C4 as stated: when trade information already
exists the endpoint answers 400 Bad Request, not the 409 Conflict the
endpoint table promises. -/
theorem C4_counterexample :
    (tradeInformationRegisterPost tradeDB 5 "t@x" "Reseller" true "11111111").1.statusCode = 400 ∧
    (tradeInformationRegisterPost tradeDB 5 "t@x" "Reseller" true "11111111").1.message =
      "Trade information already exists for this customer" ∧
    (400 : Nat) ≠ 409 :=
  ⟨rfl, rfl, by decide⟩

/-- Claim C4 amended: for an existing customer, a non-Trade customer gets
403 Forbidden, and when a trade_information row already exists the request
fails with 400 (not the 409 of the endpoint table) and the store is left
untouched — the existing row is not overwritten. -/
theorem C4_trade_info_guards (db : DB) (now : Nat)
    (email businessType code : String) (valid : Bool) (hemail : email ≠ "") :
    ∀ c, findCustomer db.customers email = some c →
      (c.customer_type ≠ CustomerType.Trade →
        tradeInformationRegisterPost db now email businessType valid code =
          (⟨false, 403, "Only Trade customers can submit trade information"⟩, db)) ∧
      (c.customer_type = CustomerType.Trade →
        db.trades.any (fun t => decide (t.owner = c.email)) = true →
        tradeInformationRegisterPost db now email businessType valid code =
          (⟨false, 400, "Trade information already exists for this customer"⟩, db)) := by
  intro c hc
  constructor
  · intro hnt
    simp [tradeInformationRegisterPost, hemail, hc, hnt]
  · intro ht hex
    simp [tradeInformationRegisterPost, hemail, hc, ht, hex]

/-- Witness for amended C4: the Trade customer with an existing row gets 400
and an unchanged store; the Retail customer gets 403. -/
theorem C4_trade_info_guards_witness :
    tradeInformationRegisterPost tradeDB 5 "t@x" "Reseller" true "11111111" =
      (⟨false, 400, "Trade information already exists for this customer"⟩, tradeDB) ∧
    tradeInformationRegisterPost sampleDB 5 "a@x" "Reseller" true "11111111" =
      (⟨false, 403, "Only Trade customers can submit trade information"⟩, sampleDB) :=
  ⟨((C4_trade_info_guards tradeDB 5 "t@x" "Reseller" "11111111" true (by decide)
      tradeCustomer rfl).2 rfl rfl),
   ((C4_trade_info_guards sampleDB 5 "a@x" "Reseller" "11111111" true (by decide)
      retailCustomer rfl).1 (by decide))⟩

/-- Claim C5: login answers 401 when the credentials do not authenticate,
regardless of the verified state; 403 "Email not verified..." when the
password is right but the customer is unverified; 403 "Account is
deactivated" when verified but inactive; and succeeds only for a verified,
active customer. -/
theorem C5_login_gating (db : DB) (email password : String) :
    (authenticate db email password = none →
      loginPost db email password = (⟨false, 401, "Invalid credentials"⟩, db)) ∧
    ∀ u, authenticate db email password = some u →
      (u.is_verified = false →
        loginPost db email password =
          (⟨false, 403, "Email not verified. Please verify your email first."⟩, db)) ∧
      (u.is_verified = true → u.is_active = false →
        loginPost db email password = (⟨false, 403, "Account is deactivated"⟩, db)) ∧
      (u.is_verified = true → u.is_active = true →
        loginPost db email password = (⟨true, 200, "Login successful"⟩, db)) := by
  refine ⟨fun hn => by simp [loginPost, hn], fun u hu => ⟨?_, ?_, ?_⟩⟩
  · intro hv
    simp [loginPost, hu, hv]
  · intro hv ha
    simp [loginPost, hu, hv, ha]
  · intro hv ha
    simp [loginPost, hu, hv, ha]

/-- Witness for C5: wrong password 401 even though the stored customer on
the verified store is verified; unverified customer with the right password
403; verified active customer 200. -/
theorem C5_login_gating_witness :
    loginPost verifiedDB "a@x" "bad" = (⟨false, 401, "Invalid credentials"⟩, verifiedDB) ∧
    loginPost sampleDB "a@x" "pw" =
      (⟨false, 403, "Email not verified. Please verify your email first."⟩, sampleDB) ∧
    loginPost verifiedDB "a@x" "pw" = (⟨true, 200, "Login successful"⟩, verifiedDB) :=
  ⟨(C5_login_gating verifiedDB "a@x" "bad").1 rfl,
   ((C5_login_gating sampleDB "a@x" "pw").2 retailCustomer rfl).1 rfl,
   ((C5_login_gating verifiedDB "a@x" "pw").2 { retailCustomer with is_verified := true }
      rfl).2.2 rfl rfl⟩

/-- Claim C3: a successful add-delivery-address for a Retail customer mints
exactly one OTP row for the customer's email and sends the verification
email; for a Trade customer it mints none — during registration a Trade
customer's OTP appears only at the successful add-trade-information step
(step 1 and the billing step never mint one, and a failing trade-info
request does not either). -/
theorem C3_registration_otp_minting (db : DB) (now : Nat) (email : String)
    (addr : AddressData) (code businessType : String) (data : RegistrationData)
    (valid : Bool) (hemail : email ≠ "") :
    (∀ c, findCustomer db.customers email = some c →
      (c.customer_type = CustomerType.Retail →
        (deliveryAddressRegisterPost db now email addr true code).1.success = true ∧
        (deliveryAddressRegisterPost db now email addr true code).2.otps =
          db.otps ++ [mkOTP (db.nextId + 1) c.email code now none] ∧
        (deliveryAddressRegisterPost db now email addr true code).2.sentEmails =
          db.sentEmails ++ [c.email]) ∧
      (c.customer_type = CustomerType.Trade →
        (deliveryAddressRegisterPost db now email addr true code).1.success = true ∧
        (deliveryAddressRegisterPost db now email addr true code).2.otps = db.otps ∧
        (deliveryAddressRegisterPost db now email addr true code).2.sentEmails =
          db.sentEmails) ∧
      (c.customer_type = CustomerType.Trade →
        db.trades.any (fun t => decide (t.owner = c.email)) = false →
        (tradeInformationRegisterPost db now email businessType true code).1.success = true ∧
        (tradeInformationRegisterPost db now email businessType true code).2.otps =
          db.otps ++ [mkOTP db.nextId c.email code now none] ∧
        (tradeInformationRegisterPost db now email businessType true code).2.sentEmails =
          db.sentEmails ++ [c.email])) ∧
    ((registerPost db data valid).2.otps = db.otps) ∧
    ((billingAddressRegisterPost db email addr valid).2.otps = db.otps) ∧
    ((tradeInformationRegisterPost db now email businessType valid code).1.success = false →
      (tradeInformationRegisterPost db now email businessType valid code).2.otps = db.otps) := by
  refine ⟨?_, ?_, ?_, ?_⟩
  · intro c hc
    refine ⟨?_, ?_, ?_⟩
    · intro hr
      have ht : ¬(c.customer_type = CustomerType.Trade) := by rw [hr]; intro h; cases h
      simp [deliveryAddressRegisterPost, hemail, hc, ht, issueOTP]
    · intro ht
      simp [deliveryAddressRegisterPost, hemail, hc, ht]
    · intro ht hno
      simp [tradeInformationRegisterPost, hemail, hc, ht, hno, issueOTP]
  · unfold registerPost
    split <;> rfl
  · unfold billingAddressRegisterPost
    split
    · rfl
    · split
      · rfl
      · split <;> rfl
  · unfold tradeInformationRegisterPost
    split
    · intro _
      rfl
    · split
      · intro _
        rfl
      · split
        · intro _
          rfl
        · split
          · intro _
            rfl
          · split
            · intro _
              rfl
            · intro hfail
              exact absurd hfail (by simp)

/-- Witness for C3: on the sample store a Retail delivery mints the one row
with the fresh id, and on a Trade store without trade info the trade-info
step mints the one row. -/
theorem C3_registration_otp_minting_witness :
    (deliveryAddressRegisterPost sampleDB 7 "a@x" ⟨"CPT"⟩ true "22222222").2.otps =
      sampleDB.otps ++ [mkOTP 2 "a@x" "22222222" 7 none] ∧
    (deliveryAddressRegisterPost tradeDB 7 "t@x" ⟨"CPT"⟩ true "22222222").2.otps =
      tradeDB.otps ∧
    (tradeInformationRegisterPost { tradeDB with trades := [] } 7 "t@x" "Reseller"
        true "33333333").2.otps =
      tradeDB.otps ++ [mkOTP 1 "t@x" "33333333" 7 none] :=
  ⟨(((C3_registration_otp_minting sampleDB 7 "a@x" ⟨"CPT"⟩ "22222222" "Reseller"
      ⟨"b@x", "pw", .Retail, "", "", ""⟩ true (by decide)).1 retailCustomer rfl).1
        rfl).2.1,
   (((C3_registration_otp_minting tradeDB 7 "t@x" ⟨"CPT"⟩ "22222222" "Reseller"
      ⟨"b@x", "pw", .Retail, "", "", ""⟩ true (by decide)).1 tradeCustomer rfl).2.1
        rfl).2.1,
   (((C3_registration_otp_minting { tradeDB with trades := [] } 7 "t@x" ⟨"CPT"⟩
      "33333333" "Reseller" ⟨"b@x", "pw", .Retail, "", "", ""⟩ true (by decide)).1
        tradeCustomer rfl).2.2 rfl rfl).2.1⟩

/-- Claim C9: in a profile update, an address entry carrying an id patches in
place only the row with that id owned by the requesting customer, is
silently skipped when no such owned row exists (so another customer's row is
never modified), and an entry without an id appends a new row owned by the
requesting customer; the billing and delivery lists of the endpoint are
driven entry by entry through exactly this step. -/
theorem C9_profile_update_addresses (db : DB) (rows : List AddressRow)
    (fid : Nat) (owner : String) (e : AddressEntry) (c : Customer) :
    (∀ i, e.id = some i →
      ((∀ r ∈ rows, ¬(r.id = i ∧ r.owner = owner)) →
        applyAddressEntry owner (rows, fid) e = (rows, fid)) ∧
      (applyAddressEntry owner (rows, fid) e).1.length = rows.length ∧
      (∀ r ∈ rows, ¬(r.id = i ∧ r.owner = owner) →
        r ∈ (applyAddressEntry owner (rows, fid) e).1) ∧
      (∀ r2 ∈ (applyAddressEntry owner (rows, fid) e).1,
        r2 ∈ rows ∨ ∃ r ∈ rows, r.id = i ∧ r.owner = owner ∧
          r2 = { r with city := e.city })) ∧
    (e.id = none →
      applyAddressEntry owner (rows, fid) e = (rows ++ [⟨fid, owner, e.city⟩], fid + 1)) ∧
    (findCustomer db.customers owner = some c →
      (profileUpdatePatch db owner
        ⟨none, none, none, some [e], none, none⟩).2.billing =
        (applyAddressEntry owner (db.billing, db.nextId) e).1 ∧
      (profileUpdatePatch db owner
        ⟨none, none, none, none, some [e], none⟩).2.delivery =
        (applyAddressEntry owner (db.delivery, db.nextId) e).1) := by
  refine ⟨?_, ?_, ?_⟩
  · intro i hid
    by_cases hexists : rows.any (fun r => decide (r.id = i) && decide (r.owner = owner)) = true
    · refine ⟨?_, ?_, ?_, ?_⟩
      · intro hnone
        obtain ⟨r, hr, hcond⟩ := List.any_eq_true.mp hexists
        simp only [Bool.and_eq_true, decide_eq_true_eq] at hcond
        exact absurd hcond (hnone r hr)
      · simp [applyAddressEntry, hid, hexists]
      · intro r hr hcond
        simp only [applyAddressEntry, hid, hexists, if_true]
        exact List.mem_map.mpr ⟨r, hr, by simp [hcond]⟩
      · intro r2 h2
        simp only [applyAddressEntry, hid, hexists, if_true] at h2
        obtain ⟨r, hr, rfl⟩ := List.mem_map.mp h2
        by_cases hcond : r.id = i ∧ r.owner = owner
        · exact Or.inr ⟨r, hr, hcond.1, hcond.2, by simp [hcond]⟩
        · exact Or.inl (by simpa [hcond] using hr)
    · have hres : applyAddressEntry owner (rows, fid) e = (rows, fid) := by
        simp only [applyAddressEntry, hid]
        rw [if_neg hexists]
      refine ⟨fun _ => hres, by rw [hres], fun r hr _ => by rw [hres]; exact hr, ?_⟩
      intro r2 h2
      rw [hres] at h2
      exact Or.inl h2
  · intro hid
    simp [applyAddressEntry, hid]
  · intro hc
    constructor
    · simp [profileUpdatePatch, hc]
    · simp [profileUpdatePatch, hc]

/-- Witness for C9 on two rows owned by different customers: an entry naming
the other customer's row id is skipped wholesale, an entry without an id
appends a row owned by the caller, and the endpoint's billing list reflects
the per-entry step. -/
theorem C9_profile_update_addresses_witness :
    applyAddressEntry "a@x" ([⟨10, "a@x", "CPT"⟩, ⟨11, "b@x", "JHB"⟩], 12)
      ⟨some 11, "HACKED"⟩ = ([⟨10, "a@x", "CPT"⟩, ⟨11, "b@x", "JHB"⟩], 12) ∧
    applyAddressEntry "a@x" ([⟨10, "a@x", "CPT"⟩, ⟨11, "b@x", "JHB"⟩], 12)
      ⟨none, "PTA"⟩ =
      ([⟨10, "a@x", "CPT"⟩, ⟨11, "b@x", "JHB"⟩, ⟨12, "a@x", "PTA"⟩], 13) ∧
    (profileUpdatePatch sampleDB "a@x"
      ⟨none, none, none, some [⟨none, "PTA"⟩], none, none⟩).2.billing =
      (applyAddressEntry "a@x" (sampleDB.billing, sampleDB.nextId) ⟨none, "PTA"⟩).1 :=
  ⟨((C9_profile_update_addresses sampleDB [⟨10, "a@x", "CPT"⟩, ⟨11, "b@x", "JHB"⟩] 12
      "a@x" ⟨some 11, "HACKED"⟩ retailCustomer).1 11 rfl).1 (by decide),
   (C9_profile_update_addresses sampleDB [⟨10, "a@x", "CPT"⟩, ⟨11, "b@x", "JHB"⟩] 12
      "a@x" ⟨none, "PTA"⟩ retailCustomer).2.1 rfl,
   ((C9_profile_update_addresses sampleDB sampleDB.billing sampleDB.nextId
      "a@x" ⟨none, "PTA"⟩ retailCustomer).2.2 rfl).1⟩

/-! Per-handler facts about the customers table, feeding the temporal claim. -/

theorem no_new_verified_map {l : List Customer} {f : Customer → Customer}
    (hf : ∀ c, (f c).email = c.email ∧ (f c).is_verified = c.is_verified) :
    ∀ c2 ∈ l.map f, c2.is_verified = true →
      ∃ c1 ∈ l, c1.email = c2.email ∧ c1.is_verified = true := by
  intro c2 h2 hv
  obtain ⟨c1, h1, rfl⟩ := List.mem_map.mp h2
  exact ⟨c1, h1, ((hf c1).1).symm, ((hf c1).2).symm.trans hv⟩

theorem setPassword_preserves (email p : String) (c : Customer) :
    ((fun c => if c.email = email then { c with password := p } else c) c).email = c.email ∧
    ((fun c => if c.email = email then { c with password := p } else c) c).is_verified =
      c.is_verified := by
  by_cases h : c.email = email <;> simp [h]

theorem billingAddressRegisterPost_customers (db : DB) (email : String)
    (addr : AddressData) (valid : Bool) :
    (billingAddressRegisterPost db email addr valid).2.customers = db.customers := by
  unfold billingAddressRegisterPost
  split
  · rfl
  · split
    · rfl
    · split <;> rfl

theorem deliveryAddressRegisterPost_customers (db : DB) (now : Nat) (email : String)
    (addr : AddressData) (valid : Bool) (code : String) :
    (deliveryAddressRegisterPost db now email addr valid code).2.customers = db.customers := by
  unfold deliveryAddressRegisterPost
  split
  · rfl
  · split
    · rfl
    · split
      · rfl
      · split <;> rfl

theorem tradeInformationRegisterPost_customers (db : DB) (now : Nat)
    (email businessType : String) (valid : Bool) (code : String) :
    (tradeInformationRegisterPost db now email businessType valid code).2.customers =
      db.customers := by
  unfold tradeInformationRegisterPost
  split
  · rfl
  · split
    · rfl
    · split
      · rfl
      · split
        · rfl
        · split <;> rfl

theorem resendOTPPost_customers (db : DB) (now : Nat) (email code : String) :
    (resendOTPPost db now email code).2.customers = db.customers := by
  unfold resendOTPPost
  split
  · rfl
  · split <;> rfl

theorem forgotPasswordPost_customers (db : DB) (now : Nat) (email code : String) :
    (forgotPasswordPost db now email code).2.customers = db.customers := by
  unfold forgotPasswordPost
  split <;> rfl

theorem loginPost_customers (db : DB) (email password : String) :
    (loginPost db email password).2.customers = db.customers := by
  unfold loginPost
  split
  · rfl
  · split
    · rfl
    · split <;> rfl

theorem verifyResetOTPPost_customers (db : DB) (now : Nat) (email code : String) :
    (verifyResetOTPPost db now email code).2.customers = db.customers := by
  unfold verifyResetOTPPost
  split
  · rfl
  · split <;> rfl

theorem resetPasswordPost_customers (db : DB) (now : Nat)
    (email code newPassword : String) (valid : Bool) :
    (resetPasswordPost db now email code newPassword valid).2.customers = db.customers ∨
    (resetPasswordPost db now email code newPassword valid).2.customers =
      setPassword db.customers email newPassword := by
  unfold resetPasswordPost
  dsimp only
  split
  · exact Or.inl rfl
  · split
    · exact Or.inl rfl
    · split
      · exact Or.inl rfl
      · split
        · exact Or.inl rfl
        · exact Or.inr rfl

theorem changePasswordPost_customers (db : DB)
    (userEmail oldPassword newPassword : String) (valid : Bool) :
    (changePasswordPost db userEmail oldPassword newPassword valid).2.customers =
      db.customers ∨
    (changePasswordPost db userEmail oldPassword newPassword valid).2.customers =
      setPassword db.customers userEmail newPassword := by
  unfold changePasswordPost
  split
  · exact Or.inl rfl
  · split
    · exact Or.inl rfl
    · exact Or.inr rfl

theorem profileUpdatePatch_customers (db : DB) (userEmail : String)
    (patch : ProfilePatch) :
    (profileUpdatePatch db userEmail patch).2.customers = db.customers ∨
    (profileUpdatePatch db userEmail patch).2.customers =
      db.customers.map (fun c =>
        if c.email = userEmail then
          { c with first_name := patch.first_name.getD c.first_name,
                   last_name := patch.last_name.getD c.last_name,
                   phone_number := patch.phone_number.getD c.phone_number }
        else c) := by
  unfold profileUpdatePatch
  dsimp only
  split
  · exact Or.inl rfl
  · split
    · exact Or.inr rfl
    · split
      · exact Or.inr rfl
      · split
        · exact Or.inr rfl
        · exact Or.inr rfl

/-- Claim C6: across the public operation surface, a customer's verified
flag becomes true only through the verify-email operation: after any other
operation, every verified customer in the store was already verified (same
email) before the operation ran. -/
theorem C6_verified_only_via_verify_email (db : DB) (now : Nat) (op : Op)
    (hop : op.isVerifyEmail = false) :
    ∀ c2 ∈ (step db now op).2.customers, c2.is_verified = true →
      ∃ c1 ∈ db.customers, c1.email = c2.email ∧ c1.is_verified = true := by
  cases op with
  | register data valid =>
      intro c2 h2 hv
      simp only [step] at h2
      unfold registerPost at h2
      split at h2
      · exact ⟨c2, h2, rfl, hv⟩
      · dsimp only at h2
        rcases List.mem_append.mp h2 with h | h
        · exact ⟨c2, h, rfl, hv⟩
        · rw [List.mem_singleton] at h
          subst h
          simp at hv
  | billingAddress e a v =>
      simp only [step]
      rw [billingAddressRegisterPost_customers]
      intro c2 h2 hv
      exact ⟨c2, h2, rfl, hv⟩
  | deliveryAddress e a v c =>
      simp only [step]
      rw [deliveryAddressRegisterPost_customers]
      intro c2 h2 hv
      exact ⟨c2, h2, rfl, hv⟩
  | tradeInfo e b v c =>
      simp only [step]
      rw [tradeInformationRegisterPost_customers]
      intro c2 h2 hv
      exact ⟨c2, h2, rfl, hv⟩
  | verifyEmail e c =>
      simp [Op.isVerifyEmail] at hop
  | resendOTP e c =>
      simp only [step]
      rw [resendOTPPost_customers]
      intro c2 h2 hv
      exact ⟨c2, h2, rfl, hv⟩
  | login e p =>
      simp only [step]
      rw [loginPost_customers]
      intro c2 h2 hv
      exact ⟨c2, h2, rfl, hv⟩
  | forgotPassword e c =>
      simp only [step]
      rw [forgotPasswordPost_customers]
      intro c2 h2 hv
      exact ⟨c2, h2, rfl, hv⟩
  | verifyResetOTP e c =>
      simp only [step]
      rw [verifyResetOTPPost_customers]
      intro c2 h2 hv
      exact ⟨c2, h2, rfl, hv⟩
  | resetPassword e c p v =>
      simp only [step]
      rcases resetPasswordPost_customers db now e c p v with h | h
      · rw [h]
        intro c2 h2 hv
        exact ⟨c2, h2, rfl, hv⟩
      · rw [h]
        unfold setPassword
        exact no_new_verified_map (setPassword_preserves e p)
  | changePassword e o n v =>
      simp only [step]
      rcases changePasswordPost_customers db e o n v with h | h
      · rw [h]
        intro c2 h2 hv
        exact ⟨c2, h2, rfl, hv⟩
      · rw [h]
        unfold setPassword
        exact no_new_verified_map (setPassword_preserves e n)
  | profileUpdate e p =>
      simp only [step]
      rcases profileUpdatePatch_customers db e p with h | h
      · rw [h]
        intro c2 h2 hv
        exact ⟨c2, h2, rfl, hv⟩
      · rw [h]
        refine no_new_verified_map ?_
        intro c
        by_cases hc : c.email = e <;> simp [hc]

/-- Witness for C6: a login step on the store with a verified customer — the
customer found verified afterwards was verified before the step. -/
theorem C6_verified_only_via_verify_email_witness :
    ∃ c1 ∈ verifiedDB.customers,
      c1.email = ({ retailCustomer with is_verified := true } : Customer).email ∧
      c1.is_verified = true :=
  C6_verified_only_via_verify_email verifiedDB 5 (Op.login "a@x" "pw") rfl
    { retailCustomer with is_verified := true } (by decide) rfl

end ECom
